import Mathlib

/-!
Shallow embedding of the devops-metrics-go core: the canonical record
types (bitbucket.Commit, bitbucket.PullRequest, jira.JiraStory), the four
metric reducers of metrics/calculator.go, and the per-entry fetch logic of
bitbucket/client.go and github/client.go.

Modelling conventions:
* Go time.Time is a Unix-seconds timestamp (Int), in UTC (the Go code
  formats and buckets in the process-local zone; we model a UTC process).
* Go float64 arithmetic is modelled over ℚ (the metric formulas are
  field expressions; the claims under test involve exactly representable
  values).
* Go map[string]int is an association list in insertion order, wrapped in
  Option: none models a nil map, some an initialized (make) map.
* Provider responses are modelled as the already-decoded listing entry
  records; a failed request or an unparsable body for a secondary fetch is
  modelled as none.
-/

namespace DevopsMetrics

def secondsPerDay : Int := 86400

/-- Unix-second timestamp of Go's zero time.Time value, 0001-01-01T00:00:00 UTC. -/
def goZeroTime : Int := -62135596800

/-- Civil date (year, month, day) from days since the Unix epoch
    (proleptic Gregorian calendar, as Go's time.Time.Format uses). -/
def civilFromDays (days : Int) : Int × Int × Int :=
  let z := days + 719468
  let era := z.fdiv 146097
  let doe := z - era * 146097
  let yoe := (doe - doe / 1460 + doe / 36524 - doe / 146096) / 365
  let y := yoe + era * 400
  let doy := doe - (365 * yoe + yoe / 4 - yoe / 100)
  let mp := (5 * doy + 2) / 153
  let d := doy - (153 * mp + 2) / 5 + 1
  let m := mp + (if mp < 10 then 3 else -9)
  (y + (if m ≤ 2 then 1 else 0), m, d)

def padTo (width : Nat) (n : Int) : String :=
  let s := toString n
  if s.length < width then String.mk (List.replicate (width - s.length) '0') ++ s else s

/-- Go Format("2006-01-02") on a Unix-seconds timestamp. -/
def formatDate (t : Int) : String :=
  let c := civilFromDays (t.fdiv secondsPerDay)
  padTo 4 c.1 ++ "-" ++ padTo 2 c.2.1 ++ "-" ++ padTo 2 c.2.2

/-- Go Weekday().String() on a Unix-seconds timestamp (epoch day 0 was a Thursday). -/
def weekdayName (t : Int) : String :=
  match (t.fdiv secondsPerDay + 4).emod 7 with
  | 0 => "Sunday"
  | 1 => "Monday"
  | 2 => "Tuesday"
  | 3 => "Wednesday"
  | 4 => "Thursday"
  | 5 => "Friday"
  | _ => "Saturday"

/-- Go map[string]int: none is a nil map, some an initialized map as an
    association list in insertion order. -/
abbrev StrMap := Option (List (String × Int))

def bump (l : List (String × Int)) (k : String) : List (String × Int) :=
  match l with
  | [] => [(k, 1)]
  | (k0, v) :: rest => if k0 = k then (k0, v + 1) :: rest else (k0, v) :: bump rest k

/-- m[k]++ on a Go map. All maps in the calculator are created with make,
    so the nil case never arises there. -/
def StrMap.incr (m : StrMap) (k : String) : StrMap :=
  match m with
  | none => none
  | some l => some (bump l k)

/-! ## Canonical record types (bitbucket/types, github/types, jira/types) -/

structure Commit where
  hash : String
  author : String
  date : Int
  message : String
  linesAdded : Int
  linesDeleted : Int
deriving Repr, DecidableEq

structure PullRequest where
  id : String
  author : String
  createdAt : Int
  mergedAt : Option Int
  closedAt : Option Int
  firstReviewAt : Option Int
  linesChanged : Int
  reviewers : List String
  status : String
deriving Repr, DecidableEq

structure JiraStory where
  key : String
  assignee : String
  createdAt : Int
  startedAt : Option Int
  completedAt : Option Int
  estimate : ℚ
  actualEffort : ℚ
  status : String
deriving Repr, DecidableEq

/-! ## Metric result types (metrics/calculator.go) -/

structure CommitMetrics where
  totalCommits : Int
  commitsPerDay : ℚ
  commitsByAuthor : StrMap
  commitsByWeekday : StrMap
  totalLinesAdded : Int
  totalLinesDeleted : Int
  activeDays : Int
  dateRange : String
deriving Repr, DecidableEq

structure PRMetrics where
  totalPRs : Int
  mergedPRs : Int
  closedPRs : Int
  openPRs : Int
  avgCycleTimeHours : ℚ
  avgReviewTimeHours : ℚ
  avgPRSize : ℚ
  prsByAuthor : StrMap
  mergeSuccessRate : ℚ
deriving Repr, DecidableEq

structure JiraMetrics where
  totalStories : Int
  completedStories : Int
  avgLeadTimeDays : ℚ
  avgCycleTimeDays : ℚ
  throughput : ℚ
  avgEstimate : ℚ
  avgActualEffort : ℚ
  estimateAccuracy : ℚ
  storiesByAssignee : StrMap
deriving Repr, DecidableEq

structure TeamMetrics where
  commitMetrics : CommitMetrics
  prMetrics : PRMetrics
  jiraMetrics : JiraMetrics
  generatedAt : Int
deriving Repr, DecidableEq

/-! ## metrics/calculator.go -/

/-- strings.ToLower, modelled for ASCII (the status vocabulary in play). -/
def lowerStr (s : String) : String := String.mk (s.data.map Char.toLower)

/-- strings.Contains. -/
def containsSub (s sub : String) : Bool := (s.data.tails).any (fun t => sub.data.isPrefixOf t)

/-- The completed-story test of CalculateJiraMetrics (calculator.go:177-181). -/
def isCompletedStatus (status : String) : Bool :=
  containsSub (lowerStr status) "done" ||
  containsSub (lowerStr status) "completed" ||
  containsSub (lowerStr status) "resolved"

/-- The abs helper of calculator.go:231-236. -/
def qabs (x : ℚ) : ℚ := if x < 0 then -x else x

/-- Loop state of CalculateCommitMetrics. -/
structure CommitAcc where
  minDate : Int
  maxDate : Int
  byAuthor : StrMap
  byWeekday : StrMap
  linesAdded : Int
  linesDeleted : Int
  dayKeys : List String
deriving Repr, DecidableEq

/-- One iteration of the CalculateCommitMetrics loop (calculator.go:69-85).
    The i = 0 case of the min/max updates is realized by starting the fold
    from the first commit's date, against which the comparisons are no-ops. -/
def commitStep (acc : CommitAcc) (c : Commit) : CommitAcc :=
  { minDate := if c.date < acc.minDate then c.date else acc.minDate
    maxDate := if acc.maxDate < c.date then c.date else acc.maxDate
    byAuthor := acc.byAuthor.incr c.author
    byWeekday := acc.byWeekday.incr (weekdayName c.date)
    linesAdded := acc.linesAdded + c.linesAdded
    linesDeleted := acc.linesDeleted + c.linesDeleted
    dayKeys := acc.dayKeys ++ [formatDate c.date] }

/-- Initial loop state for the first commit (the i = 0 branch of the
    min/max updates at calculator.go:70-75). -/
def commitAccInit (c0 : Commit) : CommitAcc :=
  { minDate := c0.date, maxDate := c0.date, byAuthor := some [],
    byWeekday := some [], linesAdded := 0, linesDeleted := 0, dayKeys := [] }

/-- CalculateCommitMetrics (calculator.go:55-95). activeDays is the number
    of distinct formatted date keys; daysDiff is Sub().Hours()/24. -/
def CalculateCommitMetrics (commits : List Commit) : CommitMetrics :=
  match commits with
  | [] =>
    { totalCommits := 0, commitsPerDay := 0, commitsByAuthor := some [],
      commitsByWeekday := some [], totalLinesAdded := 0, totalLinesDeleted := 0,
      activeDays := 0, dateRange := "" }
  | c0 :: _ =>
    let acc := commits.foldl commitStep (commitAccInit c0)
    let daysDiff : ℚ := ((acc.maxDate - acc.minDate : Int) : ℚ) / 3600 / 24
    { totalCommits := (commits.length : Int)
      commitsPerDay := if 0 < daysDiff then (commits.length : ℚ) / daysDiff else 0
      commitsByAuthor := acc.byAuthor
      commitsByWeekday := acc.byWeekday
      totalLinesAdded := acc.linesAdded
      totalLinesDeleted := acc.linesDeleted
      activeDays := (acc.dayKeys.dedup.length : Int)
      dateRange := formatDate acc.minDate ++ " to " ++ formatDate acc.maxDate }

/-- Loop state of CalculatePRMetrics. -/
structure PRAcc where
  byAuthor : StrMap
  merged : Int
  closed : Int
  openCount : Int
  totalCycle : ℚ
  cycleCount : Int
  totalReview : ℚ
  reviewCount : Int
  totalSize : ℚ
deriving Repr, DecidableEq

/-- One iteration of the CalculatePRMetrics loop (calculator.go:111-136).
    The status switch hits at most one of the three mutually exclusive
    literal cases, written here as three guarded increments. -/
def prStep (acc : PRAcc) (pr : PullRequest) : PRAcc :=
  { byAuthor := acc.byAuthor.incr pr.author
    merged := acc.merged + (if pr.status = "MERGED" then 1 else 0)
    closed := acc.closed + (if pr.status = "DECLINED" ∨ pr.status = "CLOSED" then 1 else 0)
    openCount := acc.openCount + (if pr.status = "OPEN" then 1 else 0)
    totalCycle := acc.totalCycle +
      (match pr.mergedAt with
       | some m => ((m - pr.createdAt : Int) : ℚ) / 3600
       | none => 0)
    cycleCount := acc.cycleCount + (match pr.mergedAt with | some _ => 1 | none => 0)
    totalReview := acc.totalReview +
      (match pr.firstReviewAt with
       | some r => ((r - pr.createdAt : Int) : ℚ) / 3600
       | none => 0)
    reviewCount := acc.reviewCount + (match pr.firstReviewAt with | some _ => 1 | none => 0)
    totalSize := acc.totalSize + (pr.linesChanged : ℚ) }

def prAccInit : PRAcc :=
  { byAuthor := some [], merged := 0, closed := 0, openCount := 0, totalCycle := 0,
    cycleCount := 0, totalReview := 0, reviewCount := 0, totalSize := 0 }

/-- CalculatePRMetrics (calculator.go:98-150). -/
def CalculatePRMetrics (prs : List PullRequest) : PRMetrics :=
  match prs with
  | [] =>
    { totalPRs := 0, mergedPRs := 0, closedPRs := 0, openPRs := 0, avgCycleTimeHours := 0,
      avgReviewTimeHours := 0, avgPRSize := 0, prsByAuthor := some [], mergeSuccessRate := 0 }
  | _ :: _ =>
    let acc := prs.foldl prStep prAccInit
    let total : Int := (prs.length : Int)
    { totalPRs := total
      mergedPRs := acc.merged
      closedPRs := acc.closed
      openPRs := acc.openCount
      avgCycleTimeHours := if 0 < acc.cycleCount then acc.totalCycle / (acc.cycleCount : ℚ) else 0
      avgReviewTimeHours := if 0 < acc.reviewCount then acc.totalReview / (acc.reviewCount : ℚ) else 0
      avgPRSize := if 0 < total then acc.totalSize / (total : ℚ) else 0
      prsByAuthor := acc.byAuthor
      mergeSuccessRate := if 0 < total then (acc.merged : ℚ) / (total : ℚ) * 100 else 0 }

/-- Loop state of CalculateJiraMetrics. -/
structure JiraAcc where
  minDate : Int
  maxDate : Int
  byAssignee : StrMap
  completed : Int
  totalLead : ℚ
  leadCount : Int
  totalCycle : ℚ
  cycleCount : Int
  totalEstimate : ℚ
  totalActual : ℚ
deriving Repr, DecidableEq

/-- One iteration of the CalculateJiraMetrics loop (calculator.go:167-197).
    The i = 0 min/max case is realized by jiraAccInit below. -/
def jiraStep (acc : JiraAcc) (s : JiraStory) : JiraAcc :=
  { minDate := if s.createdAt < acc.minDate then s.createdAt else acc.minDate
    maxDate :=
      match s.completedAt with
      | some t => if acc.maxDate < t then t else acc.maxDate
      | none => acc.maxDate
    byAssignee := acc.byAssignee.incr s.assignee
    completed := acc.completed + (if isCompletedStatus s.status then 1 else 0)
    totalLead := acc.totalLead +
      (match s.completedAt with
       | some t => ((t - s.createdAt : Int) : ℚ) / 3600 / 24
       | none => 0)
    leadCount := acc.leadCount + (match s.completedAt with | some _ => 1 | none => 0)
    totalCycle := acc.totalCycle +
      (match s.completedAt, s.startedAt with
       | some t, some st => ((t - st : Int) : ℚ) / 3600 / 24
       | _, _ => 0)
    cycleCount := acc.cycleCount +
      (match s.completedAt, s.startedAt with | some _, some _ => 1 | _, _ => 0)
    totalEstimate := acc.totalEstimate + s.estimate
    totalActual := acc.totalActual + s.actualEffort }

/-- Initial loop state for the first story: minDate is its creation date;
    maxDate is its completion date when set (the i = 0 branch of
    calculator.go:171), otherwise the Go zero time.Time. -/
def jiraAccInit (s0 : JiraStory) : JiraAcc :=
  { minDate := s0.createdAt
    maxDate := match s0.completedAt with | some t => t | none => goZeroTime
    byAssignee := some [], completed := 0, totalLead := 0, leadCount := 0,
    totalCycle := 0, cycleCount := 0, totalEstimate := 0, totalActual := 0 }

/-- CalculateJiraMetrics (calculator.go:153-219). -/
def CalculateJiraMetrics (stories : List JiraStory) : JiraMetrics :=
  match stories with
  | [] =>
    { totalStories := 0, completedStories := 0, avgLeadTimeDays := 0, avgCycleTimeDays := 0,
      throughput := 0, avgEstimate := 0, avgActualEffort := 0, estimateAccuracy := 0,
      storiesByAssignee := some [] }
  | s0 :: _ =>
    let acc := stories.foldl jiraStep (jiraAccInit s0)
    let total : Int := (stories.length : Int)
    let weeksDiff : ℚ := ((acc.maxDate - acc.minDate : Int) : ℚ) / 3600 / 24 / 7
    { totalStories := total
      completedStories := acc.completed
      avgLeadTimeDays := if 0 < acc.leadCount then acc.totalLead / (acc.leadCount : ℚ) else 0
      avgCycleTimeDays := if 0 < acc.cycleCount then acc.totalCycle / (acc.cycleCount : ℚ) else 0
      throughput := if 0 < weeksDiff then (acc.completed : ℚ) / weeksDiff else 0
      avgEstimate := if 0 < total then acc.totalEstimate / (total : ℚ) else 0
      avgActualEffort := if 0 < total then acc.totalActual / (total : ℚ) else 0
      estimateAccuracy :=
        if 0 < acc.totalEstimate then
          (1 - qabs (acc.totalActual - acc.totalEstimate) / acc.totalEstimate) * 100
        else 0
      storiesByAssignee := acc.byAssignee }

/-- CalculateTeamMetrics (calculator.go:222-229); time.Now() is modelled as
    the explicit argument now. -/
def CalculateTeamMetrics (commits : List Commit) (prs : List PullRequest)
    (stories : List JiraStory) (now : Int) : TeamMetrics :=
  { commitMetrics := CalculateCommitMetrics commits
    prMetrics := CalculatePRMetrics prs
    jiraMetrics := CalculateJiraMetrics stories
    generatedAt := now }

/-! ## HTTP request policy (bitbucket/client.go:84-109, jira/client.go:61-86,
    github/client.go:70-93) -/

structure HttpResponse where
  statusCode : Int
  body : String
deriving Repr, DecidableEq

/-- Outcome of one client.Do call: a transport failure or a response. -/
inductive HttpResult where
  | transportFailure : String → HttpResult
  | response : HttpResponse → HttpResult
deriving Repr, DecidableEq

inductive AdapterError where
  | transport : String → AdapterError
  | statusError : Int → String → AdapterError
deriving Repr, DecidableEq

/-- makeRequest, identical in all three clients: it performs exactly one
    client.Do and on any status other than 200 returns the error
    "API request failed with status %d: %s". The environment is the list of
    results successive HTTP attempts would receive; the unconsumed remainder
    is returned alongside the outcome. -/
def makeRequest (net : List HttpResult) :
    Except AdapterError String × List HttpResult :=
  match net with
  | [] => (Except.error (AdapterError.transport "connection refused"), [])
  | HttpResult.transportFailure e :: rest => (Except.error (AdapterError.transport e), rest)
  | HttpResult.response r :: rest =>
    if r.statusCode ≠ 200 then
      (Except.error (AdapterError.statusError r.statusCode r.body), rest)
    else
      (Except.ok r.body, rest)

/-! ## bitbucket/client.go fetch logic, per decoded listing entry -/

structure BBCommitEntry where
  id : String
  displayId : String
  authorName : String
  authorEmail : String
  authorTimestamp : Int
  message : String
deriving Repr, DecidableEq

/-- The Commit built at bitbucket/client.go:143-152; timestamps are
    milliseconds, divided by 1000 with Go's truncating int64 division. -/
def bbMkCommit (e : BBCommitEntry) : Commit :=
  { hash := e.id, author := e.authorName, date := Int.tdiv e.authorTimestamp 1000,
    message := e.message, linesAdded := 0, linesDeleted := 0 }

/-- One page of bitbucket FetchCommits (client.go:137-153): commits are
    appended in listing order until the first one older than since, at which
    point the function returns early (ending all pagination). since models
    now − DaysToAnalyze in seconds. -/
def bbCommitsPage (since : Int) (entries : List BBCommitEntry) : List Commit :=
  (entries.takeWhile (fun e => ! decide (Int.tdiv e.authorTimestamp 1000 < since))).map bbMkCommit

structure BBReviewer where
  name : String
  approved : Bool
deriving Repr, DecidableEq

structure BBPREntry where
  id : Int
  title : String
  state : String
  createdDate : Int
  updatedDate : Int
  closedDate : Int
  authorName : String
  reviewers : List BBReviewer
deriving Repr, DecidableEq

structure BBSegment where
  type : String
  lines : List String
deriving Repr, DecidableEq

structure BBHunk where
  segments : List BBSegment
deriving Repr, DecidableEq

structure BBDiff where
  hunks : List BBHunk
deriving Repr, DecidableEq

structure BBDiffResponse where
  diffs : List BBDiff
deriving Repr, DecidableEq

/-- The linesChanged accumulation of bitbucket/client.go:241-249. -/
def countChangedLines (resp : BBDiffResponse) : Int :=
  (resp.diffs.map (fun d =>
    (d.hunks.map (fun h =>
      (h.segments.map (fun seg =>
        if seg.type = "ADDED" ∨ seg.type = "REMOVED" then (seg.lines.length : Int) else 0)).sum)).sum)).sum

/-- One iteration of the bitbucket FetchPRs loop for a single listing entry
    (client.go:193-264). since models now − DaysToAnalyze in seconds;
    diffResp is the outcome of the secondary diff fetch, none modelling a
    failed request or an unparsable body (linesChanged then stays 0).
    none is returned when the entry is filtered out of the window. -/
def bbConvertPR (since : Int) (diffResp : Option BBDiffResponse) (e : BBPREntry) :
    Option PullRequest :=
  let createdAt := Int.tdiv e.createdDate 1000
  if createdAt < since then none
  else
    some
      { id := "PR-" ++ toString e.id
        author := e.authorName
        createdAt := createdAt
        mergedAt :=
          if 0 < e.closedDate ∧ e.state = "MERGED" then some (Int.tdiv e.closedDate 1000)
          else none
        closedAt :=
          if 0 < e.closedDate ∧ ¬ e.state = "MERGED" then some (Int.tdiv e.closedDate 1000)
          else none
        firstReviewAt :=
          if e.reviewers.any (fun r => r.approved) then some (Int.tdiv e.updatedDate 1000)
          else none
        linesChanged := match diffResp with | some d => countChangedLines d | none => 0
        reviewers := e.reviewers.map (fun r => r.name)
        status := e.state }

/-! ## github/client.go fetch logic, per decoded listing entry -/

structure GHCommitEntry where
  hash : String
  authorLogin : String
  authorName : String
  authorEmail : String
  date : Int
  message : String
deriving Repr, DecidableEq

/-- The Commit built at github/client.go:130-149, with the login → name
    author fallback. -/
def ghMkCommit (e : GHCommitEntry) : Commit :=
  { hash := e.hash
    author := if e.authorLogin = "" ∧ ¬ e.authorName = "" then e.authorName else e.authorLogin
    date := e.date, message := e.message, linesAdded := 0, linesDeleted := 0 }

/-- One page of github FetchCommits for one branch (client.go:130-150):
    the loop breaks at the first commit older than since. -/
def ghCommitsPage (since : Int) (entries : List GHCommitEntry) : List Commit :=
  (entries.takeWhile (fun e => ! decide (e.date < since))).map ghMkCommit

structure GHReview where
  userLogin : String
  state : String
  submittedAt : Int
deriving Repr, DecidableEq

structure GHPREntry where
  number : Int
  state : String
  userLogin : String
  createdAt : Int
  updatedAt : Int
  mergedAt : Option Int
  closedAt : Option Int
  additions : Int
  deletions : Int
  changedFiles : Int
deriving Repr, DecidableEq

/-- The firstReviewAt scan of github/client.go:195-201: first review whose
    state is APPROVED or CHANGES_REQUESTED. -/
def ghFirstReviewAt (reviews : List GHReview) : Option Int :=
  (reviews.find? (fun r => r.state = "APPROVED" ∨ r.state = "CHANGES_REQUESTED")).map
    (fun r => r.submittedAt)

/-- extractReviewers (github/client.go:244-256): unique non-empty logins in
    first-seen order. -/
def extractReviewers (reviews : List GHReview) : List String :=
  reviews.foldl
    (fun seen r =>
      if ¬ r.userLogin = "" ∧ ¬ seen.contains r.userLogin then seen ++ [r.userLogin] else seen)
    []

/-- One iteration of the github FetchPRs loop for a single listing entry
    (client.go:182-224), after the window break. reviewFetch is the outcome
    of the tertiary reviews fetch: none models a failed request or an
    unparsable body, in which case Go leaves reviews empty. The entry is
    emitted only when changedFiles is positive. -/
def ghConvertPR (reviewFetch : Option (List GHReview)) (e : GHPREntry) : Option PullRequest :=
  let reviews := reviewFetch.getD []
  let status :=
    if e.mergedAt.isSome then "MERGED"
    else if e.state = "closed" then "CLOSED"
    else "OPEN"
  if 0 < e.changedFiles then
    some
      { id := "PR-" ++ toString e.number
        author := e.userLogin
        createdAt := e.createdAt
        mergedAt := e.mergedAt
        closedAt := e.closedAt
        firstReviewAt := ghFirstReviewAt reviews
        linesChanged := e.additions + e.deletions
        reviewers := extractReviewers reviews
        status := status }
  else none

/-- One page of github FetchPRs (client.go:182-224): the loop breaks at the
    first entry created before since; reviewsFor gives each PR number's
    tertiary fetch outcome. -/
def ghProcessPage (since : Int) (reviewsFor : Int → Option (List GHReview))
    (entries : List GHPREntry) : List PullRequest :=
  (entries.takeWhile (fun e => ! decide (e.createdAt < since))).filterMap
    (fun e => ghConvertPR (reviewsFor e.number) e)

/-! ## Spec-side quantities, written from the specification's wording, to be
    compared with the embedded code above -/

/-- Cycle time in hours of one pull request, for those with mergedAt set. -/
def prCycleHours (pr : PullRequest) : ℚ :=
  match pr.mergedAt with
  | some m => ((m - pr.createdAt : Int) : ℚ) / 3600
  | none => 0

/-- The requests with mergedAt set, the population of the cycle-time mean. -/
def mergedPRsOnly (prs : List PullRequest) : List PullRequest :=
  prs.filter (fun pr => pr.mergedAt.isSome)

/-- Σestimate over the whole story population. -/
def sumEstimates (stories : List JiraStory) : ℚ := (stories.map (fun s => s.estimate)).sum

/-- Σactual over the whole story population. -/
def sumActuals (stories : List JiraStory) : ℚ := (stories.map (fun s => s.actualEffort)).sum

/-- Day-span from the minimum to the maximum commit date. -/
def daySpanDays : List Commit → ℚ
  | [] => 0
  | c0 :: rest =>
    (((rest.map (fun c => c.date)).foldl max c0.date
      - (rest.map (fun c => c.date)).foldl min c0.date : Int) : ℚ) / 86400

/-- The weeks-span denominator of the Throughput computation
    (calculator.go:213): latest completed date minus earliest creation
    date, in weeks, with the Go zero time standing in when no story is
    completed. -/
def jiraWeeksSpan : List JiraStory → ℚ
  | [] => 0
  | s0 :: rest =>
    let acc := List.foldl jiraStep (jiraAccInit s0) (s0 :: rest)
    ((acc.maxDate - acc.minDate : Int) : ℚ) / 3600 / 24 / 7

/-! ## Concrete records used to instantiate the claims -/

/-- PR created at hour 0, merged 10 hours later (36000 s). -/
def c2pr1 : PullRequest :=
  { id := "PR-1", author := "a", createdAt := 0, mergedAt := some 36000, closedAt := none,
    firstReviewAt := none, linesChanged := 0, reviewers := [], status := "MERGED" }

/-- PR created at hour 0, never merged. -/
def c2pr2 : PullRequest :=
  { id := "PR-2", author := "b", createdAt := 0, mergedAt := none, closedAt := none,
    firstReviewAt := none, linesChanged := 0, reviewers := [], status := "OPEN" }

/-- Story with estimate 5 and actual effort 4. -/
def c3st1 : JiraStory :=
  { key := "S-1", assignee := "a", createdAt := 0, startedAt := none, completedAt := none,
    estimate := 5, actualEffort := 4, status := "Open" }

/-- Story with estimate 3 and actual effort 3. -/
def c3st2 : JiraStory :=
  { key := "S-2", assignee := "b", createdAt := 0, startedAt := none, completedAt := none,
    estimate := 3, actualEffort := 3, status := "Open" }

/-- A GitHub listing entry for a merged PR: the provider reports both
    merged_at and closed_at (GitHub sets closed_at on merge). -/
def c5ghEntry : GHPREntry :=
  { number := 7, state := "closed", userLogin := "alice", createdAt := 1000, updatedAt := 2000,
    mergedAt := some 1500, closedAt := some 1500, additions := 3, deletions := 1,
    changedFiles := 1 }

/-- A merged Bitbucket listing entry with a positive closedDate. -/
def c5bbEntry : BBPREntry :=
  { id := 1, title := "t", state := "MERGED", createdDate := 5000000, updatedDate := 6000000,
    closedDate := 7000000, authorName := "bob", reviewers := [] }

/-- An open GitHub PR with one changed file. -/
def c5ghOpenEntry : GHPREntry :=
  { number := 2, state := "open", userLogin := "alice", createdAt := 100, updatedAt := 200,
    mergedAt := none, closedAt := none, additions := 1, deletions := 0, changedFiles := 1 }

/-- The record ghConvertPR produces from c5ghOpenEntry. -/
def c5ghOpenPR : PullRequest :=
  { id := "PR-2", author := "alice", createdAt := 100, mergedAt := none, closedAt := none,
    firstReviewAt := none, linesChanged := 1, reviewers := [], status := "OPEN" }

/-- An open GitHub PR with one changed file, for the C6 witness. -/
def c6ghPosEntry : GHPREntry :=
  { number := 5, state := "open", userLogin := "carol", createdAt := 100, updatedAt := 200,
    mergedAt := none, closedAt := none, additions := 2, deletions := 0, changedFiles := 1 }

/-- An in-window GitHub PR whose changed_files count is zero. -/
def c6ghEntry : GHPREntry :=
  { number := 3, state := "open", userLogin := "alice", createdAt := 100, updatedAt := 100,
    mergedAt := none, closedAt := none, additions := 0, deletions := 0, changedFiles := 0 }

/-- An in-window Bitbucket PR listing entry. -/
def c6bbEntry : BBPREntry :=
  { id := 4, title := "t", state := "OPEN", createdDate := 9000000, updatedDate := 9000000,
    closedDate := 0, authorName := "bob", reviewers := [] }

/-- A single commit at the epoch. -/
def c7commit : Commit :=
  { hash := "h1", author := "a", date := 0, message := "m", linesAdded := 1, linesDeleted := 2 }

/-- Bitbucket commit listing entries in descending timestamp order;
    c8bb2 sits exactly on the window boundary for since = 1000. -/
def c8bb1 : BBCommitEntry :=
  { id := "c1", displayId := "c1", authorName := "a", authorEmail := "", authorTimestamp := 5000000,
    message := "" }

def c8bb2 : BBCommitEntry :=
  { id := "c2", displayId := "c2", authorName := "a", authorEmail := "", authorTimestamp := 1000000,
    message := "" }

/-- GitHub commit listing entries in descending date order; c8gh2 sits
    exactly on the window boundary for since = 1000. -/
def c8gh1 : GHCommitEntry :=
  { hash := "g1", authorLogin := "a", authorName := "", authorEmail := "", date := 5000,
    message := "" }

def c8gh2 : GHCommitEntry :=
  { hash := "g2", authorLogin := "a", authorName := "", authorEmail := "", date := 1000,
    message := "" }

/-- A story with no completion date. -/
def c9story : JiraStory :=
  { key := "S-3", assignee := "a", createdAt := 100, startedAt := none, completedAt := none,
    estimate := 0, actualEffort := 0, status := "Done" }

/-! ## Helper lemmas about the loop folds -/

theorem prFold_totalCycle (prs : List PullRequest) (acc : PRAcc) :
    (List.foldl prStep acc prs).totalCycle
      = acc.totalCycle + ((mergedPRsOnly prs).map prCycleHours).sum := by
  induction prs generalizing acc with
  | nil => simp [mergedPRsOnly]
  | cons pr rest ih =>
    simp only [List.foldl_cons, ih, mergedPRsOnly, List.filter_cons]
    cases h : pr.mergedAt with
    | none => simp [prStep, prCycleHours, h]
    | some m =>
      simp [prStep, h, prCycleHours]
      ring

theorem prFold_cycleCount (prs : List PullRequest) (acc : PRAcc) :
    (List.foldl prStep acc prs).cycleCount
      = acc.cycleCount + ((mergedPRsOnly prs).length : Int) := by
  induction prs generalizing acc with
  | nil => simp [mergedPRsOnly]
  | cons pr rest ih =>
    simp only [List.foldl_cons, ih, mergedPRsOnly, List.filter_cons]
    cases h : pr.mergedAt with
    | none => simp [prStep, h]
    | some m =>
      simp [prStep, h]
      ring

theorem jiraFold_totalEstimate (stories : List JiraStory) (acc : JiraAcc) :
    (List.foldl jiraStep acc stories).totalEstimate
      = acc.totalEstimate + sumEstimates stories := by
  induction stories generalizing acc with
  | nil => simp [sumEstimates]
  | cons s rest ih =>
    simp only [List.foldl_cons, ih, sumEstimates, List.map_cons, List.sum_cons]
    simp only [jiraStep, sumEstimates]
    ring

theorem jiraFold_totalActual (stories : List JiraStory) (acc : JiraAcc) :
    (List.foldl jiraStep acc stories).totalActual
      = acc.totalActual + sumActuals stories := by
  induction stories generalizing acc with
  | nil => simp [sumActuals]
  | cons s rest ih =>
    simp only [List.foldl_cons, ih, sumActuals, List.map_cons, List.sum_cons]
    simp only [jiraStep, sumActuals]
    ring

theorem jiraFold_completed_nonneg (stories : List JiraStory) (acc : JiraAcc)
    (h : 0 ≤ acc.completed) : 0 ≤ (List.foldl jiraStep acc stories).completed := by
  induction stories generalizing acc with
  | nil => simpa using h
  | cons s rest ih =>
    simp only [List.foldl_cons]
    refine ih _ ?_
    simp only [jiraStep]
    split <;> omega

theorem jiraFold_maxDate_of_none (stories : List JiraStory) (acc : JiraAcc)
    (h : ∀ s ∈ stories, s.completedAt = none) :
    (List.foldl jiraStep acc stories).maxDate = acc.maxDate := by
  induction stories generalizing acc with
  | nil => rfl
  | cons s rest ih =>
    simp only [List.foldl_cons]
    rw [ih _ (fun x hx => h x (List.mem_cons_of_mem _ hx))]
    simp [jiraStep, h s (List.mem_cons_self _ _)]

theorem jiraFold_minDate_gt (stories : List JiraStory) (acc : JiraAcc) (z : Int)
    (h : ∀ s ∈ stories, z < s.createdAt) (ha : z < acc.minDate) :
    z < (List.foldl jiraStep acc stories).minDate := by
  induction stories generalizing acc with
  | nil => simpa using ha
  | cons s rest ih =>
    simp only [List.foldl_cons]
    refine ih _ (fun x hx => h x (List.mem_cons_of_mem _ hx)) ?_
    have hs := h s (List.mem_cons_self _ _)
    simp only [jiraStep]
    split <;> omega

theorem commitFold_minDate (cs : List Commit) (acc : CommitAcc) :
    (List.foldl commitStep acc cs).minDate
      = (cs.map (fun c => c.date)).foldl min acc.minDate := by
  induction cs generalizing acc with
  | nil => rfl
  | cons c rest ih =>
    simp only [List.foldl_cons, List.map_cons, ih]
    congr 1
    simp only [commitStep]
    rw [min_def]
    split <;> split <;> omega

theorem commitFold_maxDate (cs : List Commit) (acc : CommitAcc) :
    (List.foldl commitStep acc cs).maxDate
      = (cs.map (fun c => c.date)).foldl max acc.maxDate := by
  induction cs generalizing acc with
  | nil => rfl
  | cons c rest ih =>
    simp only [List.foldl_cons, List.map_cons, ih]
    congr 1
    simp only [commitStep]
    rw [max_def]
    split <;> split <;> omega

theorem commitFold_dayKeys (cs : List Commit) (acc : CommitAcc) :
    (List.foldl commitStep acc cs).dayKeys
      = acc.dayKeys ++ cs.map (fun c => formatDate c.date) := by
  induction cs generalizing acc with
  | nil => simp
  | cons c rest ih =>
    simp only [List.foldl_cons, ih, List.map_cons]
    simp [commitStep]

/-! ## Claims -/

/-- C1: the claim says a rate-limit response is retried with exponential
    backoff and only exhausted retries yield a distinct terminal error. The
    code has no retry: makeRequest, given a 429 rate-limit response with a
    success available to any second attempt, consumes exactly one exchange
    and returns the same generic status error every non-200 response gets.
    (The repository's own README and WEB_API.md advertise "Rate limiting
    with exponential backoff", so the code contradicts its documentation.) -/
theorem C1_no_retry_on_rate_limit :
    makeRequest [HttpResult.response ⟨429, "rate limited"⟩, HttpResult.response ⟨200, "data"⟩]
      = (Except.error (AdapterError.statusError 429 "rate limited"),
         [HttpResult.response ⟨200, "data"⟩]) := rfl

/-- C4 counterexample: two Aggregator runs over the same (empty) immutable
    inputs at consecutive clock instants do not yield bit-identical reports,
    because CalculateTeamMetrics stamps GeneratedAt from time.Now(). -/
theorem C4_not_bit_identical :
    CalculateTeamMetrics [] [] [] 0 ≠ CalculateTeamMetrics [] [] [] 1 := by
  intro h
  have := congrArg TeamMetrics.generatedAt h
  simp [CalculateTeamMetrics] at this

/-- C4 amended: running the Aggregator twice over the same immutable inputs
    yields reports identical in all three metric blocks; only GeneratedAt
    differs, being stamped from the clock at each invocation. -/
theorem C4_deterministic_except_timestamp (commits : List Commit) (prs : List PullRequest)
    (stories : List JiraStory) (t1 t2 : Int) :
    (CalculateTeamMetrics commits prs stories t1).commitMetrics
        = (CalculateTeamMetrics commits prs stories t2).commitMetrics ∧
    (CalculateTeamMetrics commits prs stories t1).prMetrics
        = (CalculateTeamMetrics commits prs stories t2).prMetrics ∧
    (CalculateTeamMetrics commits prs stories t1).jiraMetrics
        = (CalculateTeamMetrics commits prs stories t2).jiraMetrics ∧
    (CalculateTeamMetrics commits prs stories t1).generatedAt = t1 :=
  ⟨rfl, rfl, rfl, rfl⟩

/-- C10: on empty input, CalculatePRMetrics and CalculateJiraMetrics return
    the zero-valued structs whose map fields are initialized empty maps
    (some [], not the nil map none), with every numeric field 0; both are
    total functions, so no error or panic arises. -/
theorem C10_empty_inputs :
    CalculatePRMetrics []
      = { totalPRs := 0, mergedPRs := 0, closedPRs := 0, openPRs := 0, avgCycleTimeHours := 0,
          avgReviewTimeHours := 0, avgPRSize := 0, prsByAuthor := some [],
          mergeSuccessRate := 0 } ∧
    CalculateJiraMetrics []
      = { totalStories := 0, completedStories := 0, avgLeadTimeDays := 0, avgCycleTimeDays := 0,
          throughput := 0, avgEstimate := 0, avgActualEffort := 0, estimateAccuracy := 0,
          storiesByAssignee := some [] } ∧
    (CalculatePRMetrics []).prsByAuthor ≠ none ∧
    (CalculateJiraMetrics []).storiesByAssignee ≠ none :=
  ⟨rfl, rfl, by decide, by decide⟩


theorem CalculatePRMetrics_cons_avgCycle (p : PullRequest) (rest : List PullRequest) :
    (CalculatePRMetrics (p :: rest)).avgCycleTimeHours =
      if 0 < (List.foldl prStep prAccInit (p :: rest)).cycleCount
      then (List.foldl prStep prAccInit (p :: rest)).totalCycle
             / (((List.foldl prStep prAccInit (p :: rest)).cycleCount : Int) : ℚ)
      else 0 := rfl

/-- C2: CalculatePRMetrics computes the average cycle time (hours) as the
    mean of mergedAt − createdAt over exactly the requests with mergedAt
    set — requests without a merge time are excluded from the mean, not
    counted as zero — and on the two-PR input with cycle times 10 h and
    null the average is 10, not 5. -/
theorem C2_avg_cycle_over_merged_only :
    (∀ prs : List PullRequest,
        (CalculatePRMetrics prs).avgCycleTimeHours =
          if (mergedPRsOnly prs).length = 0 then 0
          else ((mergedPRsOnly prs).map prCycleHours).sum / ((mergedPRsOnly prs).length : ℚ))
    ∧ (CalculatePRMetrics [c2pr1, c2pr2]).avgCycleTimeHours = 10 := by
  have hgen : ∀ prs : List PullRequest,
      (CalculatePRMetrics prs).avgCycleTimeHours =
        if (mergedPRsOnly prs).length = 0 then 0
        else ((mergedPRsOnly prs).map prCycleHours).sum / ((mergedPRsOnly prs).length : ℚ) := by
    intro prs
    match prs with
    | [] => simp [CalculatePRMetrics, mergedPRsOnly]
    | p :: rest =>
      rw [CalculatePRMetrics_cons_avgCycle, prFold_totalCycle, prFold_cycleCount]
      simp only [prAccInit, zero_add]
      rcases Nat.eq_zero_or_pos (mergedPRsOnly (p :: rest)).length with h | h
      · simp [h]
      · rw [if_pos (by exact_mod_cast h), if_neg (by omega)]
        push_cast
        ring
  refine ⟨hgen, ?_⟩
  rw [hgen]
  norm_num [mergedPRsOnly, c2pr1, c2pr2, prCycleHours]


theorem CalculateJiraMetrics_cons_estimateAccuracy (s0 : JiraStory) (rest : List JiraStory) :
    (CalculateJiraMetrics (s0 :: rest)).estimateAccuracy =
      if 0 < (List.foldl jiraStep (jiraAccInit s0) (s0 :: rest)).totalEstimate
      then (1 - qabs ((List.foldl jiraStep (jiraAccInit s0) (s0 :: rest)).totalActual
                      - (List.foldl jiraStep (jiraAccInit s0) (s0 :: rest)).totalEstimate)
                / (List.foldl jiraStep (jiraAccInit s0) (s0 :: rest)).totalEstimate) * 100
      else 0 := rfl

/-- C3: CalculateJiraMetrics computes estimate accuracy as
    (1 − |Σactual − Σestimate| / Σestimate) × 100 using the sums over the
    whole population, leaving it at 0 when the estimate sum is not
    positive; for estimates [5,3] against actuals [4,3] it yields 87.5. -/
theorem C3_estimate_accuracy :
    (∀ stories : List JiraStory,
        (CalculateJiraMetrics stories).estimateAccuracy =
          if 0 < sumEstimates stories then
            (1 - qabs (sumActuals stories - sumEstimates stories) / sumEstimates stories) * 100
          else 0)
    ∧ (CalculateJiraMetrics [c3st1, c3st2]).estimateAccuracy = 875 / 10 := by
  have hgen : ∀ stories : List JiraStory,
      (CalculateJiraMetrics stories).estimateAccuracy =
        if 0 < sumEstimates stories then
          (1 - qabs (sumActuals stories - sumEstimates stories) / sumEstimates stories) * 100
        else 0 := by
    intro stories
    match stories with
    | [] => simp [CalculateJiraMetrics, sumEstimates]
    | s0 :: rest =>
      rw [CalculateJiraMetrics_cons_estimateAccuracy, jiraFold_totalEstimate,
        jiraFold_totalActual]
      simp [jiraAccInit]
  refine ⟨hgen, ?_⟩
  rw [hgen]
  norm_num [sumEstimates, sumActuals, c3st1, c3st2, qabs]


theorem CalculateCommitMetrics_cons_perDay (c0 : Commit) (rest : List Commit) :
    (CalculateCommitMetrics (c0 :: rest)).commitsPerDay =
      if 0 < (((List.foldl commitStep (commitAccInit c0) (c0 :: rest)).maxDate
               - (List.foldl commitStep (commitAccInit c0) (c0 :: rest)).minDate : Int) : ℚ)
              / 3600 / 24
      then (((c0 :: rest).length : Nat) : ℚ)
           / ((((List.foldl commitStep (commitAccInit c0) (c0 :: rest)).maxDate
                - (List.foldl commitStep (commitAccInit c0) (c0 :: rest)).minDate : Int) : ℚ)
              / 3600 / 24)
      else 0 := rfl

theorem CalculateCommitMetrics_cons_activeDays (c0 : Commit) (rest : List Commit) :
    (CalculateCommitMetrics (c0 :: rest)).activeDays
      = (((List.foldl commitStep (commitAccInit c0) (c0 :: rest)).dayKeys.dedup.length : Nat) :
          Int) := rfl

theorem CalculateCommitMetrics_cons_total (c0 : Commit) (rest : List Commit) :
    (CalculateCommitMetrics (c0 :: rest)).totalCommits = (((c0 :: rest).length : Nat) : Int) := rfl

theorem commit_daysDiff_eq_span (c0 : Commit) (rest : List Commit) :
    (((List.foldl commitStep (commitAccInit c0) (c0 :: rest)).maxDate
      - (List.foldl commitStep (commitAccInit c0) (c0 :: rest)).minDate : Int) : ℚ) / 3600 / 24
      = daySpanDays (c0 :: rest) := by
  rw [commitFold_minDate, commitFold_maxDate]
  simp only [commitAccInit, List.map_cons, List.foldl_cons, min_self, max_self, daySpanDays]
  rw [div_div]
  norm_num

/-- C7: for every non-empty commit list, ActiveDays ≤ TotalCommits,
    CommitsPerDay ≥ 0, and CommitsPerDay is the total count divided by the
    day-span from the minimum to the maximum commit date, a non-positive
    span yielding 0 rather than a division by zero. -/
theorem C7_commit_invariants (commits : List Commit) (h : commits ≠ []) :
    (CalculateCommitMetrics commits).activeDays ≤ (CalculateCommitMetrics commits).totalCommits ∧
    0 ≤ (CalculateCommitMetrics commits).commitsPerDay ∧
    (CalculateCommitMetrics commits).commitsPerDay =
      (if 0 < daySpanDays commits then ((commits.length : ℚ)) / daySpanDays commits else 0) := by
  match commits with
  | [] => exact absurd rfl h
  | c0 :: rest =>
    have hdays := commitFold_dayKeys (c0 :: rest) (commitAccInit c0)
    have hA : (CalculateCommitMetrics (c0 :: rest)).activeDays
        ≤ (CalculateCommitMetrics (c0 :: rest)).totalCommits := by
      rw [CalculateCommitMetrics_cons_activeDays, CalculateCommitMetrics_cons_total, hdays]
      simp only [commitAccInit, List.nil_append]
      have hsub := List.Sublist.length_le
        (List.dedup_sublist ((c0 :: rest).map (fun c => formatDate c.date)))
      rw [List.length_map] at hsub
      exact_mod_cast hsub
    have hC : (CalculateCommitMetrics (c0 :: rest)).commitsPerDay =
        (if 0 < daySpanDays (c0 :: rest)
         then (((c0 :: rest).length : ℚ)) / daySpanDays (c0 :: rest) else 0) := by
      rw [CalculateCommitMetrics_cons_perDay, commit_daysDiff_eq_span]
    refine ⟨hA, ?_, hC⟩
    rw [hC]
    split
    · next hpos => exact div_nonneg (by positivity) (le_of_lt hpos)
    · exact le_refl 0

/-- C7 witness: the invariants instantiated at a singleton commit list. -/
theorem C7_commit_invariants_witness :
    (CalculateCommitMetrics [c7commit]).activeDays
        ≤ (CalculateCommitMetrics [c7commit]).totalCommits ∧
    0 ≤ (CalculateCommitMetrics [c7commit]).commitsPerDay ∧
    (CalculateCommitMetrics [c7commit]).commitsPerDay =
      (if 0 < daySpanDays [c7commit] then (([c7commit].length : ℚ)) / daySpanDays [c7commit]
       else 0) :=
  C7_commit_invariants [c7commit] (by simp)


theorem mem_takeWhile_of_desc {a : Type} (key : a → Int) (since : Int) (l : List a) :
    l.Pairwise (fun x y => key y ≤ key x) → ∀ e ∈ l, since ≤ key e →
      e ∈ l.takeWhile (fun x => ! decide (key x < since)) := by
  induction l with
  | nil => intro _ e he _; cases he
  | cons x t ih =>
    intro hs e he hk
    rw [List.pairwise_cons] at hs
    have hx : ¬ key x < since := by
      rcases List.mem_cons.mp he with rfl | hmem
      · omega
      · have := hs.1 e hmem
        omega
    rw [List.takeWhile_cons]
    have hpx : (! decide (key x < since)) = true := by simpa using hx
    rw [hpx]
    simp only [if_pos rfl]
    rcases List.mem_cons.mp he with rfl | hmem
    · exact List.mem_cons_self _ _
    · exact List.mem_cons_of_mem _ (ih hs.2 e hmem hk)

theorem takeWhile_key_ge {a : Type} (key : a → Int) (since : Int) (l : List a) (e : a)
    (he : e ∈ l.takeWhile (fun x => ! decide (key x < since))) : since ≤ key e := by
  have := List.mem_takeWhile_imp he
  simp at this
  omega

/-- C8: the time-window filter uses an inclusive lower bound: for listing
    pages in descending timestamp order, a commit dated exactly
    since = now − windowDays is included in the fetched result, and every
    fetched commit is dated ≥ since, so a commit strictly before the
    boundary is excluded (Bitbucket and GitHub adapters alike). -/
theorem C8_window_boundary (since : Int) (bbs : List BBCommitEntry) (ghs : List GHCommitEntry)
    (hbb : bbs.Pairwise
      (fun x y => Int.tdiv y.authorTimestamp 1000 ≤ Int.tdiv x.authorTimestamp 1000))
    (hgh : ghs.Pairwise (fun x y => y.date ≤ x.date)) :
    (∀ e ∈ bbs, Int.tdiv e.authorTimestamp 1000 = since →
        bbMkCommit e ∈ bbCommitsPage since bbs) ∧
    (∀ c ∈ bbCommitsPage since bbs, since ≤ c.date) ∧
    (∀ e ∈ ghs, e.date = since → ghMkCommit e ∈ ghCommitsPage since ghs) ∧
    (∀ c ∈ ghCommitsPage since ghs, since ≤ c.date) := by
  refine ⟨?_, ?_, ?_, ?_⟩
  · intro e he hk
    exact List.mem_map_of_mem _
      (mem_takeWhile_of_desc (fun x => Int.tdiv x.authorTimestamp 1000) since bbs hbb e he
        (le_of_eq hk.symm))
  · intro c hc
    rcases List.mem_map.mp hc with ⟨e, he, rfl⟩
    have := takeWhile_key_ge (fun x => Int.tdiv x.authorTimestamp 1000) since bbs e he
    simpa [bbMkCommit] using this
  · intro e he hk
    exact List.mem_map_of_mem _
      (mem_takeWhile_of_desc (fun x => x.date) since ghs hgh e he (le_of_eq hk.symm))
  · intro c hc
    rcases List.mem_map.mp hc with ⟨e, he, rfl⟩
    have := takeWhile_key_ge (fun x => x.date) since ghs e he
    simpa [ghMkCommit] using this

/-- C8 witness: boundary commits at exactly since = 1000 are fetched from
    two-entry descending listings of both adapters. -/
theorem C8_window_boundary_witness :
    bbMkCommit c8bb2 ∈ bbCommitsPage 1000 [c8bb1, c8bb2] ∧
    ghMkCommit c8gh2 ∈ ghCommitsPage 1000 [c8gh1, c8gh2] :=
  ⟨(C8_window_boundary 1000 [c8bb1, c8bb2] [c8gh1, c8gh2] (by decide) (by decide)).1
      c8bb2 (by decide) (by decide),
   (C8_window_boundary 1000 [c8bb1, c8bb2] [c8gh1, c8gh2] (by decide) (by decide)).2.2.1
      c8gh2 (by decide) (by decide)⟩


theorem CalculateJiraMetrics_cons_throughput (s0 : JiraStory) (rest : List JiraStory) :
    (CalculateJiraMetrics (s0 :: rest)).throughput =
      if 0 < jiraWeeksSpan (s0 :: rest)
      then (((List.foldl jiraStep (jiraAccInit s0) (s0 :: rest)).completed : Int) : ℚ)
            / jiraWeeksSpan (s0 :: rest)
      else 0 := rfl

/-- C9: Throughput is never negative; whenever the weeks-span from the
    accumulator's min creation date to its max completion date is zero or
    negative, the guard leaves Throughput at 0; in particular when no story
    has completedAt set (and all creations postdate the Go zero time, which
    is the uninitialized max date), Throughput stays 0. -/
theorem C9_throughput_guard (stories : List JiraStory) :
    0 ≤ (CalculateJiraMetrics stories).throughput ∧
    (jiraWeeksSpan stories ≤ 0 → (CalculateJiraMetrics stories).throughput = 0) ∧
    ((∀ s ∈ stories, s.completedAt = none) → (∀ s ∈ stories, goZeroTime < s.createdAt) →
      (CalculateJiraMetrics stories).throughput = 0) := by
  match stories with
  | [] => exact ⟨le_refl 0, fun _ => rfl, fun _ _ => rfl⟩
  | s0 :: rest =>
    have hthr := CalculateJiraMetrics_cons_throughput s0 rest
    have hguard : jiraWeeksSpan (s0 :: rest) ≤ 0 →
        (CalculateJiraMetrics (s0 :: rest)).throughput = 0 := by
      intro hsp
      rw [hthr, if_neg (not_lt.mpr hsp)]
    refine ⟨?_, hguard, ?_⟩
    · rw [hthr]
      split
      · next hpos =>
        refine div_nonneg ?_ (le_of_lt hpos)
        have hc := jiraFold_completed_nonneg (s0 :: rest) (jiraAccInit s0) (by simp [jiraAccInit])
        exact_mod_cast hc
      · exact le_refl 0
    · intro hnone hcreat
      apply hguard
      have hmax : (List.foldl jiraStep (jiraAccInit s0) (s0 :: rest)).maxDate = goZeroTime := by
        rw [jiraFold_maxDate_of_none _ _ hnone]
        simp [jiraAccInit, hnone s0 (List.mem_cons_self _ _)]
      have hmin : goZeroTime < (List.foldl jiraStep (jiraAccInit s0) (s0 :: rest)).minDate := by
        refine jiraFold_minDate_gt _ _ _ hcreat ?_
        simpa [jiraAccInit] using hcreat s0 (List.mem_cons_self _ _)
      have hneg : ((List.foldl jiraStep (jiraAccInit s0) (s0 :: rest)).maxDate
          - (List.foldl jiraStep (jiraAccInit s0) (s0 :: rest)).minDate : Int) < 0 := by
        omega
      have hq : (((List.foldl jiraStep (jiraAccInit s0) (s0 :: rest)).maxDate
          - (List.foldl jiraStep (jiraAccInit s0) (s0 :: rest)).minDate : Int) : ℚ) < 0 := by
        exact_mod_cast hneg
      simp only [jiraWeeksSpan]
      exact le_of_lt (div_neg_of_neg_of_pos (div_neg_of_neg_of_pos
        (div_neg_of_neg_of_pos hq (by norm_num)) (by norm_num)) (by norm_num))

/-- C9 witness: a singleton story with no completion date leaves
    Throughput at 0. -/
theorem C9_throughput_guard_witness :
    0 ≤ (CalculateJiraMetrics [c9story]).throughput ∧
    (CalculateJiraMetrics [c9story]).throughput = 0 ∧
    (CalculateJiraMetrics [c9story]).throughput = 0 :=
  ⟨(C9_throughput_guard [c9story]).1,
   (C9_throughput_guard [c9story]).2.1 (by
      simp only [jiraWeeksSpan, List.foldl, jiraStep, jiraAccInit, c9story, goZeroTime]
      norm_num),
   (C9_throughput_guard [c9story]).2.2 (by decide) (by decide)⟩


/-- C5 counterexample: the GitHub adapter emits a record in terminal
    MERGED status whose closedAt is set (closed_at is copied verbatim from
    the provider, and GitHub marks merged PRs closed), contradicting the
    claim that a merged record has closedAt unset. -/
theorem C5_merged_pr_with_closedAt :
    (ghConvertPR (some []) c5ghEntry).map (fun pr => (pr.status, pr.mergedAt, pr.closedAt))
      = some ("MERGED", some 1500, some 1500) := by decide

/-- C5 amended: in the Bitbucket adapter, every emitted record with a
    positive provider closedDate has, in MERGED state, mergedAt set and
    closedAt unset and, in any other (declined/closed) state, closedAt set
    and mergedAt unset; in the GitHub adapter an emitted record has MERGED
    status exactly when mergedAt is set and a CLOSED or OPEN record has
    mergedAt unset, but a merged record may also carry closedAt. -/
theorem C5_amended_terminal_state_fields :
    (∀ (since : Int) (d : Option BBDiffResponse) (e : BBPREntry),
        ¬ Int.tdiv e.createdDate 1000 < since → 0 < e.closedDate →
        ∃ pr, bbConvertPR since d e = some pr ∧
          (pr.status = "MERGED" → pr.mergedAt.isSome ∧ pr.closedAt = none) ∧
          (¬ pr.status = "MERGED" → pr.closedAt.isSome ∧ pr.mergedAt = none))
    ∧ (∀ (rf : Option (List GHReview)) (e : GHPREntry) (pr : PullRequest),
        ghConvertPR rf e = some pr →
          (pr.status = "MERGED" ↔ pr.mergedAt.isSome) ∧
          ((pr.status = "CLOSED" ∨ pr.status = "OPEN") → pr.mergedAt = none)) := by
  constructor
  · intro since d e hwin hcd
    simp only [bbConvertPR, if_neg hwin]
    refine ⟨_, rfl, ?_, ?_⟩
    · intro hst
      have hst2 : e.state = "MERGED" := hst
      constructor
      · simp [hcd, hst2]
      · simp [hst2]
    · intro hst
      have hst2 : ¬ e.state = "MERGED" := hst
      constructor
      · simp [hcd, hst2]
      · simp [hst2]
  · intro rf e pr hpr
    simp only [ghConvertPR] at hpr
    by_cases hcf : 0 < e.changedFiles
    · rw [if_pos hcf] at hpr
      have hpr2 := Option.some_injective _ hpr
      subst hpr2
      cases hm : e.mergedAt with
      | some m =>
        constructor
        · simp [hm]
        · intro hst
          rcases hst with hst | hst <;> simp [hm] at hst
      | none =>
        constructor
        · by_cases hcl : e.state = "closed" <;> simp [hm, hcl]
        · intro _
          simp [hm]
    · rw [if_neg hcf] at hpr
      cases hpr

/-- C5 witness: the amended statement instantiated at a merged Bitbucket
    entry and at an open GitHub entry. -/
theorem C5_amended_witness :
    (∃ pr, bbConvertPR 0 none c5bbEntry = some pr ∧
       (pr.status = "MERGED" → pr.mergedAt.isSome ∧ pr.closedAt = none) ∧
       (¬ pr.status = "MERGED" → pr.closedAt.isSome ∧ pr.mergedAt = none)) ∧
    ((c5ghOpenPR.status = "MERGED" ↔ c5ghOpenPR.mergedAt.isSome) ∧
     ((c5ghOpenPR.status = "CLOSED" ∨ c5ghOpenPR.status = "OPEN") →
        c5ghOpenPR.mergedAt = none)) :=
  ⟨C5_amended_terminal_state_fields.1 0 none c5bbEntry (by decide) (by decide),
   C5_amended_terminal_state_fields.2 (some []) c5ghOpenEntry c5ghOpenPR (by decide)⟩

/-- C6 counterexample: an in-window GitHub PR whose changed_files count is
    zero is not emitted at all even when its review fetch fails — the
    primary record is dropped, contradicting the claim that it is still
    emitted. -/
theorem C6_zero_changed_files_dropped :
    ghProcessPage 0 (fun _ => none) [c6ghEntry] = [] := by decide

/-- C6 amended: secondary/tertiary fetch failures are non-fatal — the
    Bitbucket adapter emits every in-window PR with linesChanged 0 when the
    diff fetch fails, and the GitHub adapter emits the record with
    firstReviewAt unset and no reviewers when the reviews fetch fails — but
    the GitHub adapter only ever emits PRs with a positive changed_files
    count. -/
theorem C6_amended_nonfatal_enrichment :
    (∀ (since : Int) (e : BBPREntry), ¬ Int.tdiv e.createdDate 1000 < since →
        ∃ pr, bbConvertPR since none e = some pr ∧ pr.linesChanged = 0)
    ∧ (∀ e : GHPREntry, 0 < e.changedFiles →
        ∃ pr, ghConvertPR none e = some pr ∧ pr.firstReviewAt = none ∧ pr.reviewers = []) := by
  constructor
  · intro since e hwin
    simp only [bbConvertPR, if_neg hwin]
    exact ⟨_, rfl, rfl⟩
  · intro e hcf
    simp only [ghConvertPR]
    rw [if_pos hcf]
    exact ⟨_, rfl, rfl, rfl⟩

/-- C6 witness: the amended statement instantiated at an in-window
    Bitbucket entry with a failed diff fetch and a GitHub entry with one
    changed file and a failed reviews fetch. -/
theorem C6_amended_witness :
    (∃ pr, bbConvertPR 0 none c6bbEntry = some pr ∧ pr.linesChanged = 0) ∧
    (∃ pr, ghConvertPR none c6ghPosEntry = some pr ∧ pr.firstReviewAt = none ∧
       pr.reviewers = []) :=
  ⟨C6_amended_nonfatal_enrichment.1 0 c6bbEntry (by decide),
   C6_amended_nonfatal_enrichment.2 c6ghPosEntry (by decide)⟩

end DevopsMetrics
